import Mathlib

/-! goaiapi: the relay loops of `cmd/main.go`

A shallow embedding of the three WebSocket handlers (`/ai`, `/start-chat`, `/ops`) and of the
response renderer (`responseString`, `contentString`).

The generative-model client, the shell, the JSON codec and the WebSocket transport are external
collaborators.  They are not reimplemented: every handler takes an `Env W`, a record of
deterministic transition functions over an abstract world state `W`, and every result below is
proved for an arbitrary `Env W` unless it names a concrete one.
-/

namespace Goaiapi

/-! ## Data model -/

/-- A `genai.Part`.  `text s` is `genai.Text(s)`, whose `%v` rendering is `s` itself; `other shown`
is any non-text part, carried together with its `%v` rendering. -/
inductive Part where
  | text (s : String)
  | other (shown : String)
  deriving DecidableEq, Repr

/-- The `%v` rendering of a part, as in `fmt.Fprintf(&b, "%v", part)`. -/
def Part.format : Part → String
  | .text s => s
  | .other shown => shown

/-- A `genai.Content`.  `Parts = none` is the nil slice. -/
structure Content where
  Role : String
  Parts : Option (List Part)
  deriving DecidableEq, Repr

/-- A `genai.Candidate`; `Content = none` is the nil pointer. -/
structure Candidate where
  Content : Option Content
  deriving DecidableEq, Repr

/-- A `genai.GenerateContentResponse`. -/
structure Response where
  Candidates : List Candidate
  deriving DecidableEq, Repr

/-- The wire entity, `type Message struct { Content string }`. -/
structure Message where
  Content : String
  deriving DecidableEq, Repr

/-! ## Response renderer (main.go lines 30-53) -/

/-- The `for i, part := range c.Parts` loop of `contentString`: `b` is the builder, `i` the
index of the next part. -/
def contentStringLoop (b : String) (i : Nat) : List Part → String
  | [] => b
  | part :: rest =>
    let b1 := if i > 0 then b ++ ";" else b
    contentStringLoop (b1 ++ part.format) (i + 1) rest

/-- The function `contentString(c *genai.Content) string`. -/
def contentString (c : Option Content) : String :=
  match c with
  | none => ""
  | some c =>
    match c.Parts with
    | none => ""
    | some parts => contentStringLoop "" 0 parts

/-- The `for i, cand := range resp.Candidates` loop of `responseString`: `n` is
`len(resp.Candidates)`, `b` the builder, `i` the index of the next candidate. -/
def responseStringLoop (n : Nat) (b : String) (i : Nat) : List Candidate → String
  | [] => b
  | cand :: rest =>
    let b1 := if n > 1 then b ++ toString (i + 1) ++ ":" else b
    responseStringLoop n (b1 ++ contentString cand.Content) (i + 1) rest

/-- The function `responseString(resp *genai.GenerateContentResponse) string`. -/
def responseString (resp : Response) : String :=
  responseStringLoop resp.Candidates.length "" 0 resp.Candidates

/-- Spec wording (section 4.4): the texts joined with a single semicolon between consecutive
parts. -/
def joinSemicolon : List String → String
  | [] => ""
  | [t] => t
  | t :: u :: rest => t ++ ";" ++ joinSemicolon (u :: rest)

/-- Concatenation with no separator. -/
def concatAll : List String → String
  | [] => ""
  | s :: rest => s ++ concatAll rest

/-- Spec wording (section 4.4): the rendering of the candidate at 0-based position `i` of a
response with `n` candidates: its flattened text, prefixed by the 1-based index and a colon
exactly when there is more than one candidate. -/
def candidateText (n : Nat) (i : Nat) (cand : Candidate) : String :=
  (if n > 1 then toString (i + 1) ++ ":" else "") ++ contentString cand.Content

/-- Spec wording (section 4.4): the candidates' renderings, in order, from position `i` on. -/
def candidateTextsFrom (n : Nat) (i : Nat) : List Candidate → List String
  | [] => []
  | cand :: rest => candidateText n i cand :: candidateTextsFrom n (i + 1) rest

/-! ## External collaborators -/

/-- How a handler run ends the process or the connection abnormally: `fatal` is `log.Fatal`
(the whole process exits), `panic` is a Go run-time panic (index out of range). -/
inductive Abort where
  | fatal
  | panic
  deriving DecidableEq, Repr

/-- The calls a handler makes on its collaborators, in program order.
* `generate prompt`: `model.GenerateContent(ctx, genai.Text(prompt))`;
* `submit msg streaming`: `session.SendMessage` (`streaming = false`) or
  `session.SendMessageStream` drained to `iterator.Done` (`streaming = true`);
* `exec cmd`: `exec.Command("bash", "-c", cmd).CombinedOutput()`;
* `write messageType m payload`: `conn.WriteMessage(messageType, payload)` where `payload` is
  the JSON encoding of `m`. -/
inductive Event where
  | generate (prompt : String)
  | submit (msg : String) (streaming : Bool)
  | exec (cmd : String)
  | write (messageType : Nat) (m : Message) (payload : String)
  deriving DecidableEq, Repr

/-- The external collaborators, as deterministic functions of an abstract world state `W`.
* `unmarshal p`: `json.Unmarshal(p, &msg)`; `none` is a decoding error.
* `marshal m`: `json.Marshal(m)`; `none` is an encoding error.
* `generateContent w prompt`: single-shot generation; `none` is `err != nil`.
* `sendMessage w history msg streaming`: one chat submission on a session whose history is
  `history`; the result is the session history afterwards, `none` when the call (or, when
  streaming, some `iter.Next()`) returns an error.
* `combinedOutput w cmd`: runs `bash -c cmd`; returns the captured output and whether
  `err != nil` (non-zero exit or spawn error).
* `writeMessage w messageType payload`: `true` when the write succeeds. -/
structure Env (W : Type) where
  unmarshal : String → Option Message
  marshal : Message → Option String
  generateContent : W → String → W × Option Response
  sendMessage : W → List (Option Content) → String → Bool → W × Option (List (Option Content))
  combinedOutput : W → String → W × String × Bool
  writeMessage : W → Nat → String → W × Bool

/-- The value `websocket.TextMessage`. -/
def TextMessage : Nat := 1

/-- One result of `conn.ReadMessage()`: `none` is a read error, `some (messageType, p)` a frame. -/
abbrev Frame := Option (Nat × String)

/-- A connection of `/start-chat` or `/ops`: the world and `session.History`. -/
structure Session (W : Type) where
  world : W
  History : List (Option Content)

/-- What the read loop does after one iteration: `next` reads the next frame (`continue` or
the end of the loop body), `closed` is `return` (the deferred `conn.Close()` runs),
`abort a` is `log.Fatal` or a panic. -/
inductive Outcome where
  | next
  | closed
  | abort (a : Abort)
  deriving DecidableEq, Repr

/-- Whether an iteration ended in `log.Fatal` or a panic. -/
def Outcome.isAbort : Outcome → Bool
  | .abort _ => true
  | _ => false

/-- The effect of a piece of handler code: the state afterwards, the collaborator calls made,
and how it ended. -/
structure Step (σ : Type) where
  st : σ
  events : List Event
  outcome : Outcome

/-- The result of one call of the `send` closure: the session afterwards, the collaborator
calls made, and the returned string (or the abort). -/
structure Sent (W : Type) where
  st : Session W
  events : List Event
  result : Except Abort String

/-- The number of chat submissions among some collaborator calls. -/
def countSubmits : List Event → Nat
  | [] => 0
  | .submit _ _ :: rest => countSubmits rest + 1
  | _ :: rest => countSubmits rest

/-- The number of shell executions among some collaborator calls. -/
def countExecs : List Event → Nat
  | [] => 0
  | .exec _ :: rest => countExecs rest + 1
  | _ :: rest => countExecs rest

/-- The outbound messages among some collaborator calls, in order. -/
def written : List Event → List Message
  | [] => []
  | .write _ m _ :: rest => m :: written rest
  | _ :: rest => written rest

/-! ## The handlers (main.go lines 87-303) -/

section Handlers

variable {W : Type}

/-- The part of both `send` closures after the short-circuit test (lines 152-175 and
225-248): submit, check the history length (a mismatch is only logged), and return
`contentString` of the last history entry.  An error of the submission is `log.Fatal`, after
which the process is gone and the session is not observed again; indexing an empty history
panics. -/
def submitAndRead (env : Env W) (s : Session W) (msg : String) (streaming : Bool) : Sent W :=
  match env.sendMessage s.world s.History msg streaming with
  | (w1, none) => ⟨⟨w1, s.History⟩, [.submit msg streaming], .error .fatal⟩
  | (w1, some h1) =>
    match h1.getLast? with
    | none => ⟨⟨w1, h1⟩, [.submit msg streaming], .error .panic⟩
    | some last => ⟨⟨w1, h1⟩, [.submit msg streaming], .ok (contentString last)⟩

/-- The `send` closure of `/start-chat` (lines 147-176). -/
def chatSend (env : Env W) (s : Session W) (msg : String) (streaming : Bool) : Sent W :=
  if msg = "" then ⟨s, [], .ok ""⟩
  else submitAndRead env s msg streaming

/-- The `send` closure of `/ops` (lines 220-249). -/
def opsSend (env : Env W) (s : Session W) (msg : String) (streaming : Bool) : Sent W :=
  if msg = "echo true" ∨ msg = "echo false" then ⟨s, [], .ok msg⟩
  else submitAndRead env s msg streaming

/-- Marshal `m` and write it as a frame of type `messageType`; `onMarshalError` is what the
handler does when `json.Marshal` fails (`continue` on `/ai`, `return` on the others).  A
failed write is `return`. -/
def writeReply (env : Env W) (w : W) (messageType : Nat) (m : Message) (onMarshalError : Outcome) :
    W × List Event × Outcome :=
  match env.marshal m with
  | none => (w, [], onMarshalError)
  | some payload =>
    match env.writeMessage w messageType payload with
    | (w1, true) => (w1, [.write messageType m payload], .next)
    | (w1, false) => (w1, [.write messageType m payload], .closed)

/-- One iteration of the read loop of `/ai` (lines 95-134). -/
def aiStep (env : Env W) (w : W) (frame : Frame) : Step W :=
  match frame with
  | none => ⟨w, [], .closed⟩
  | some (messageType, p) =>
    match env.unmarshal p with
    | none => ⟨w, [], .next⟩
    | some msg =>
      match env.generateContent w msg.Content with
      | (w1, none) => ⟨w1, [.generate msg.Content], .next⟩
      | (w1, some resp) =>
        let got := responseString resp
        let r := writeReply env w1 messageType ⟨got⟩ .next
        ⟨r.1, .generate msg.Content :: r.2.1, r.2.2⟩

/-- One iteration of the read loop of `/start-chat` (lines 177-208). -/
def chatStep (env : Env W) (s : Session W) (frame : Frame) : Step (Session W) :=
  match frame with
  | none => ⟨s, [], .closed⟩
  | some (_, p) =>
    match env.unmarshal p with
    | none => ⟨s, [], .next⟩
    | some msg =>
      let sent := chatSend env s msg.Content true
      match sent.result with
      | .error a => ⟨sent.st, sent.events, .abort a⟩
      | .ok r =>
        let wr := writeReply env sent.st.world TextMessage ⟨r⟩ .closed
        ⟨⟨wr.1, sent.st.History⟩, sent.events ++ wr.2.1, wr.2.2⟩

/-- The prompt of the repair turn (line 276). -/
def fixPrompt (output : String) : String :=
  "There was an error running the command. Output was: " ++ output ++ "\nFix it."

/-- The body of the `/ops` read loop after a successful decode (lines 264-301).  The output
sent back is the `output` declared on line 273: the `output, err :=` of line 278 declares new
variables scoped to the `if` block. -/
def opsHandle (env : Env W) (s : Session W) (msg : Message) : Step (Session W) :=
  let sent := opsSend env s msg.Content false
  match sent.result with
  | .error a => ⟨sent.st, sent.events, .abort a⟩
  | .ok r =>
    match env.combinedOutput sent.st.world r with
    | (w1, output, false) =>
      let wr := writeReply env w1 TextMessage ⟨output⟩ .closed
      ⟨⟨wr.1, sent.st.History⟩, sent.events ++ [.exec r] ++ wr.2.1, wr.2.2⟩
    | (w1, output, true) =>
      let fixed := opsSend env ⟨w1, sent.st.History⟩ (fixPrompt output) false
      match fixed.result with
      | .error a => ⟨fixed.st, sent.events ++ [.exec r] ++ fixed.events, .abort a⟩
      | .ok fixed_reply =>
        match env.combinedOutput fixed.st.world fixed_reply with
        | (w2, _, _) =>
          let wr := writeReply env w2 TextMessage ⟨output⟩ .closed
          ⟨⟨wr.1, fixed.st.History⟩,
            sent.events ++ [.exec r] ++ fixed.events ++ [.exec fixed_reply] ++ wr.2.1, wr.2.2⟩

/-- One iteration of the read loop of `/ops` (lines 251-302). -/
def opsStep (env : Env W) (s : Session W) (frame : Frame) : Step (Session W) :=
  match frame with
  | none => ⟨s, [], .closed⟩
  | some (_, p) =>
    match env.unmarshal p with
    | none => ⟨s, [], .next⟩
    | some msg => opsHandle env s msg

/-- A read loop `for { ... }` over the frames that `conn.ReadMessage()` returns, in order:
the loop goes on while the iteration ends in `next`.  When the frames are used up the loop is
blocked in `ReadMessage`, which is reported as `next`. -/
def runLoop {σ : Type} (step : σ → Frame → Step σ) : σ → List Frame → Step σ
  | s, [] => ⟨s, [], .next⟩
  | s, frame :: rest =>
    let r := step s frame
    match r.outcome with
    | .next =>
      let r2 := runLoop step r.st rest
      ⟨r2.st, r.events ++ r2.events, r2.outcome⟩
    | _ => r

/-- The read loop of `/ai`. -/
def aiLoop (env : Env W) : W → List Frame → Step W := runLoop (aiStep env)

/-- The read loop of `/start-chat`. -/
def chatLoop (env : Env W) : Session W → List Frame → Step (Session W) := runLoop (chatStep env)

/-- The read loop of `/ops`. -/
def opsLoop (env : Env W) : Session W → List Frame → Step (Session W) := runLoop (opsStep env)

/-- The instruction submitted when an `/ops` connection opens (line 250). -/
def systemInstruction : String :=
  "you are connected to a bash terminal that runs on a Debian GNU/Linux 12 (bookworm).Everything you reply will be copy pasted to bash as is to be ran. Please don't reply with anything other than bash commands. if you don't know return echo false. You will be pasted the reply of the bash terminal as a response and if the task is done return echo true. Please make sure that all commands you send return and don't hang forver and are cli ready meaning that you cannot confirum. don't install any new packages unless asked."

/-- The `/start-chat` handler after the upgrade: a fresh session (`model.StartChat()`), then
the read loop. -/
def chatConn (env : Env W) (w : W) (frames : List Frame) : Step (Session W) :=
  chatLoop env ⟨w, []⟩ frames

/-- The `/ops` handler after the upgrade: a fresh session, the system instruction, then the
read loop. -/
def opsConn (env : Env W) (w : W) (frames : List Frame) : Step (Session W) :=
  let init := opsSend env ⟨w, []⟩ systemInstruction false
  match init.result with
  | .error a => ⟨init.st, init.events, .abort a⟩
  | .ok _ =>
    let r := opsLoop env init.st frames
    ⟨r.st, init.events ++ r.events, r.outcome⟩

/-- The assumption of the history invariant: every chat submission succeeds and leaves the
session history exactly two entries longer (the user turn and the model turn). -/
def ModelAppendsTwo (env : Env W) : Prop :=
  ∀ (w : W) (history : List (Option Content)) (msg : String) (streaming : Bool),
    ∃ h1, (env.sendMessage w history msg streaming).2 = some h1
      ∧ h1.length = history.length + 2

/-- Every frame of the list decodes to a `Message` whose content satisfies `ok`. -/
def WellFormed (env : Env W) (ok : String → Prop) (frames : List Frame) : Prop :=
  ∀ f ∈ frames, ∃ (messageType : Nat) (p : String) (msg : Message),
    f = some (messageType, p) ∧ env.unmarshal p = some msg ∧ ok msg.Content

/-- Replies can always be delivered: `json.Marshal` and `conn.WriteMessage` never fail. -/
def RepliesDelivered (env : Env W) : Prop :=
  (∀ m, ∃ payload, env.marshal m = some payload)
    ∧ ∀ (w : W) (messageType : Nat) (payload : String),
        (env.writeMessage w messageType payload).2 = true

/-- Every shell command succeeds (`err == nil`). -/
def CommandsSucceed (env : Env W) : Prop :=
  ∀ (w : W) (cmd : String), (env.combinedOutput w cmd).2.2 = false

end Handlers

/-! ## A concrete environment

A small scripted world used to evaluate the handlers on concrete inputs: a model that answers
a few prompts with fixed commands, a shell with a fixed table of outcomes, a JSON codec for
`Message` restricted to the payloads below, and a transport whose writes succeed. -/

/-- The scripted model's answer to a prompt. -/
def demoReply (msg : String) : String :=
  if msg = "show /nonexistent" then "cat /nonexistent"
  else if msg = fixPrompt "cat: /nonexistent: No such file or directory\n" then "echo missing"
  else if msg = "read /missing" then "cat /missing"
  else if msg = fixPrompt "cat: /missing: No such file or directory\n" then "cat /missing"
  else if msg = "say hello" then "echo hello"
  else "echo false"

/-- The scripted shell: captured output and whether the command failed. -/
def demoShell (cmd : String) : String × Bool :=
  if cmd = "echo true" then ("true\n", false)
  else if cmd = "echo false" then ("false\n", false)
  else if cmd = "echo hello" then ("hello\n", false)
  else if cmd = "echo missing" then ("missing\n", false)
  else if cmd = "cat /nonexistent" then ("cat: /nonexistent: No such file or directory\n", true)
  else if cmd = "cat /missing" then ("cat: /missing: No such file or directory\n", true)
  else ("", false)

/-- The scripted decoder: the JSON documents it knows, anything else is malformed. -/
def demoUnmarshal (p : String) : Option Message :=
  if p = "\x7b\"content\":\"echo true\"\x7d" then some ⟨"echo true"⟩
  else if p = "\x7b\"content\":\"echo false\"\x7d" then some ⟨"echo false"⟩
  else if p = "\x7b\"content\":\"\"\x7d" then some ⟨""⟩
  else if p = "\x7b\"content\":\"show /nonexistent\"\x7d" then some ⟨"show /nonexistent"⟩
  else if p = "\x7b\"content\":\"read /missing\"\x7d" then some ⟨"read /missing"⟩
  else if p = "\x7b\"content\":\"say hello\"\x7d" then some ⟨"say hello"⟩
  else none

/-- JSON escaping of one character, for the characters the scripted world produces. -/
def demoEscape (c : Char) : List Char :=
  if c = '\n' then ['\\', 'n']
  else if c = '"' then ['\\', '"']
  else if c = '\\' then ['\\', '\\']
  else [c]

/-- The escaped characters of a list of characters. -/
def demoEscapeAll : List Char → List Char
  | [] => []
  | c :: rest => demoEscape c ++ demoEscapeAll rest

/-- The scripted encoder of a `Message`. -/
def demoMarshal (m : Message) : Option String :=
  some ("\x7b\"content\":\"" ++ String.mk (demoEscapeAll m.Content.data) ++ "\"\x7d")

/-- The scripted world: every chat submission appends the user turn and the model turn. -/
def demoEnv : Env Unit where
  unmarshal := demoUnmarshal
  marshal := demoMarshal
  generateContent := fun w prompt =>
    (w, some ⟨[⟨some ⟨"model", some [.text (demoReply prompt)]⟩⟩]⟩)
  sendMessage := fun w history msg _ =>
    (w, some (history ++ [some ⟨"user", some [.text msg]⟩,
      some ⟨"model", some [.text (demoReply msg)]⟩]))
  combinedOutput := fun w cmd => (w, demoShell cmd)
  writeMessage := fun w _ _ => (w, true)

/-- The scripted world with a shell on which every command succeeds and prints nothing. -/
def quietEnv : Env Unit where
  unmarshal := demoUnmarshal
  marshal := demoMarshal
  generateContent := demoEnv.generateContent
  sendMessage := demoEnv.sendMessage
  combinedOutput := fun w _ => (w, "", false)
  writeMessage := fun w _ _ => (w, true)

/-- A fresh session of the scripted world. -/
def demoSession : Session Unit := ⟨(), []⟩

/-- A frame carrying a `Message` with the given (escape-free) content. -/
def demoFrame (content : String) : Frame :=
  some (TextMessage, "\x7b\"content\":\"" ++ content ++ "\"\x7d")

/-! ## The renderer -/

theorem contentStringLoop_succ (b : String) (i : Nat) (parts : List Part) :
    contentStringLoop b (i + 1) parts = String.intercalate.go b ";" (parts.map Part.format) := by
  induction parts generalizing b i with
  | nil => rfl
  | cons part rest ih =>
    simp only [contentStringLoop, List.map_cons, String.intercalate.go]
    rw [if_pos (Nat.succ_pos i)]
    exact ih _ _

theorem intercalateGo_cons (b u : String) (rest : List String) :
    String.intercalate.go b ";" (u :: rest) = b ++ ";" ++ joinSemicolon (u :: rest) := by
  induction rest generalizing b u with
  | nil => rfl
  | cons v rest ih =>
    rw [String.intercalate.go, ih, joinSemicolon]
    simp only [String.append_assoc]

theorem intercalate_eq_joinSemicolon (texts : List String) :
    String.intercalate ";" texts = joinSemicolon texts := by
  match texts with
  | [] => rfl
  | [t] => rfl
  | t :: u :: rest =>
    rw [String.intercalate, intercalateGo_cons, joinSemicolon]

theorem contentStringLoop_zero (parts : List Part) :
    contentStringLoop "" 0 parts = String.intercalate ";" (parts.map Part.format) := by
  match parts with
  | [] => rfl
  | part :: rest =>
    simp only [contentStringLoop, List.map_cons, String.intercalate]
    rw [if_neg (Nat.lt_irrefl 0), contentStringLoop_succ, String.empty_append]

theorem map_format_text (texts : List String) :
    (texts.map Part.text).map Part.format = texts := by
  induction texts with
  | nil => rfl
  | cons t rest ih => simp only [List.map_cons, ih, Part.format]

theorem responseStringLoop_eq (n : Nat) (b : String) (i : Nat) (cands : List Candidate) :
    responseStringLoop n b i cands = b ++ concatAll (candidateTextsFrom n i cands) := by
  induction cands generalizing b i with
  | nil => simp [responseStringLoop, candidateTextsFrom, concatAll]
  | cons cand rest ih =>
    simp only [responseStringLoop, candidateTextsFrom, concatAll, candidateText]
    rw [ih]
    by_cases h : n > 1
    · simp only [if_pos h, String.append_assoc]
    · simp only [if_neg h, String.append_assoc, String.empty_append]

/-- C3: `contentString` joins the `%v` renderings of the parts, in order, with a single
semicolon between consecutive parts (for text parts: the texts themselves), and is the empty
string for a nil content, for nil parts and for an empty parts list; parts "x", "y" render
as "x;y". -/
theorem contentString_joins (role : String) (parts : List Part) (texts : List String) :
    contentString (some ⟨role, some parts⟩) = joinSemicolon (parts.map Part.format)
    ∧ contentString (some ⟨role, some (texts.map Part.text)⟩) = joinSemicolon texts
    ∧ contentString (some ⟨role, some (texts.map Part.text)⟩) = String.intercalate ";" texts
    ∧ contentString none = ""
    ∧ contentString (some ⟨role, none⟩) = ""
    ∧ contentString (some ⟨role, some []⟩) = ""
    ∧ contentString (some ⟨role, some [.text "x", .text "y"]⟩) = "x;y" := by
  refine ⟨?_, ?_, ?_, rfl, rfl, rfl, rfl⟩
  · simp only [contentString, contentStringLoop_zero, intercalate_eq_joinSemicolon]
  · simp only [contentString, contentStringLoop_zero, intercalate_eq_joinSemicolon,
      map_format_text]
  · simp only [contentString, contentStringLoop_zero, map_format_text]

/-- C2: `responseString` is the concatenation, with no separator, of the candidates'
`contentString` in order, each prefixed by its 1-based index and a colon exactly when the
response has more than one candidate; two candidates with texts "A" and "B" render as
"1:A2:B", a single candidate as its `contentString`, no candidate as the empty string. -/
theorem responseString_concat (resp : Response) (cand : Candidate) (i : Nat)
    (r1 r2 a b : String) :
    responseString resp
      = concatAll (candidateTextsFrom resp.Candidates.length 0 resp.Candidates)
    ∧ (candidateText resp.Candidates.length i cand
        = if resp.Candidates.length > 1 then toString (i + 1) ++ ":" ++ contentString cand.Content
          else contentString cand.Content)
    ∧ responseString ⟨[⟨some ⟨r1, some [.text a]⟩⟩, ⟨some ⟨r2, some [.text b]⟩⟩]⟩
        = "1:" ++ a ++ "2:" ++ b
    ∧ responseString ⟨[⟨some ⟨r1, some [.text "A"]⟩⟩, ⟨some ⟨r2, some [.text "B"]⟩⟩]⟩ = "1:A2:B"
    ∧ responseString ⟨[cand]⟩ = contentString cand.Content
    ∧ responseString ⟨[]⟩ = "" := by
  refine ⟨?_, ?_, ?_, rfl, ?_, rfl⟩
  · rw [responseString, responseStringLoop_eq, String.empty_append]
  · unfold candidateText
    by_cases h : resp.Candidates.length > 1
    · simp only [if_pos h]
    · simp only [if_neg h, String.empty_append]
  · simp [responseString, responseStringLoop, contentString, contentStringLoop, Part.format,
      String.append_assoc]
    rfl
  · simp [responseString, responseStringLoop]

/-! ## Counting collaborator calls -/

theorem countSubmits_append (xs ys : List Event) :
    countSubmits (xs ++ ys) = countSubmits xs + countSubmits ys := by
  induction xs with
  | nil => simp [countSubmits]
  | cons e rest ih =>
    cases e <;> simp [countSubmits, ih]
    omega

theorem countExecs_append (xs ys : List Event) :
    countExecs (xs ++ ys) = countExecs xs + countExecs ys := by
  induction xs with
  | nil => simp [countExecs]
  | cons e rest ih =>
    cases e <;> simp [countExecs, ih]
    omega

theorem written_append (xs ys : List Event) :
    written (xs ++ ys) = written xs ++ written ys := by
  induction xs with
  | nil => simp [written]
  | cons e rest ih => cases e <;> simp [written, ih]

section HandlerFacts

variable {W : Type}

/-! ## The `send` closures -/

theorem fixPrompt_ne_echo_true (output : String) : fixPrompt output ≠ "echo true" := by
  intro h
  have h2 := congrArg String.data h
  simp [fixPrompt, String.data_append] at h2

theorem fixPrompt_ne_echo_false (output : String) : fixPrompt output ≠ "echo false" := by
  intro h
  have h2 := congrArg String.data h
  simp [fixPrompt, String.data_append] at h2

theorem submitAndRead_events (env : Env W) (s : Session W) (msg : String) (streaming : Bool) :
    (submitAndRead env s msg streaming).events = [.submit msg streaming] := by
  unfold submitAndRead
  split
  · rfl
  · split <;> rfl

theorem submitAndRead_ok (env : Env W) (s : Session W) (msg : String) (streaming : Bool)
    (w1 : W) (h1 : List (Option Content)) (last : Option Content)
    (hsub : env.sendMessage s.world s.History msg streaming = (w1, some h1))
    (hlast : h1.getLast? = some last) :
    submitAndRead env s msg streaming
      = ⟨⟨w1, h1⟩, [.submit msg streaming], .ok (contentString last)⟩ := by
  unfold submitAndRead
  rw [hsub]
  simp only [hlast]

theorem opsSend_of_sentinel (env : Env W) (s : Session W) (msg : String) (streaming : Bool)
    (h : msg = "echo true" ∨ msg = "echo false") :
    opsSend env s msg streaming = ⟨s, [], .ok msg⟩ := by
  unfold opsSend
  rw [if_pos h]

theorem opsSend_of_other (env : Env W) (s : Session W) (msg : String) (streaming : Bool)
    (h : ¬ (msg = "echo true" ∨ msg = "echo false")) :
    opsSend env s msg streaming = submitAndRead env s msg streaming := by
  unfold opsSend
  rw [if_neg h]

theorem opsSend_fixPrompt (env : Env W) (s : Session W) (output : String) (streaming : Bool) :
    opsSend env s (fixPrompt output) streaming
      = submitAndRead env s (fixPrompt output) streaming := by
  apply opsSend_of_other
  intro h
  rcases h with h | h
  · exact fixPrompt_ne_echo_true output h
  · exact fixPrompt_ne_echo_false output h

theorem opsSend_countSubmits_le (env : Env W) (s : Session W) (msg : String) (streaming : Bool) :
    countSubmits (opsSend env s msg streaming).events ≤ 1 := by
  unfold opsSend
  split
  · simp [countSubmits]
  · rw [submitAndRead_events]
    simp [countSubmits]

theorem opsSend_countExecs (env : Env W) (s : Session W) (msg : String) (streaming : Bool) :
    countExecs (opsSend env s msg streaming).events = 0 := by
  unfold opsSend
  split
  · simp [countExecs]
  · rw [submitAndRead_events]
    simp [countExecs]

/-! ## Writing the reply -/

theorem writeReply_countSubmits (env : Env W) (w : W) (mt : Nat) (m : Message) (o : Outcome) :
    countSubmits (writeReply env w mt m o).2.1 = 0 := by
  unfold writeReply
  split
  · rfl
  · split <;> rfl

theorem writeReply_countExecs (env : Env W) (w : W) (mt : Nat) (m : Message) (o : Outcome) :
    countExecs (writeReply env w mt m o).2.1 = 0 := by
  unfold writeReply
  split
  · rfl
  · split <;> rfl

theorem writeReply_written_mem (env : Env W) (w : W) (mt : Nat) (m : Message) (o : Outcome)
    (x : Message) (hx : x ∈ written (writeReply env w mt m o).2.1) : x = m := by
  unfold writeReply at hx
  split at hx
  · simp [written] at hx
  · split at hx <;> simpa [written] using hx

theorem writeReply_events_of_marshal (env : Env W) (w : W) (mt : Nat) (m : Message) (o : Outcome)
    (payload : String) (hm : env.marshal m = some payload) :
    (writeReply env w mt m o).2.1 = [.write mt m payload] := by
  unfold writeReply
  rw [hm]
  simp only
  split <;> rfl

/-! ## The body of the `/ops` loop -/

theorem opsHandle_success (env : Env W) (s s1 : Session W) (msg : Message) (ev1 : List Event)
    (r : String) (w1 : W) (output : String)
    (hsend : opsSend env s msg.Content false = ⟨s1, ev1, .ok r⟩)
    (hexec : env.combinedOutput s1.world r = (w1, output, false)) :
    opsHandle env s msg
      = ⟨⟨(writeReply env w1 TextMessage ⟨output⟩ .closed).1, s1.History⟩,
          ev1 ++ [.exec r] ++ (writeReply env w1 TextMessage ⟨output⟩ .closed).2.1,
          (writeReply env w1 TextMessage ⟨output⟩ .closed).2.2⟩ := by
  unfold opsHandle
  simp only [hsend, hexec]

theorem opsHandle_repair_abort (env : Env W) (s s1 s2 : Session W) (msg : Message)
    (ev1 ev2 : List Event) (r : String) (w1 : W) (output : String) (a : Abort)
    (hsend : opsSend env s msg.Content false = ⟨s1, ev1, .ok r⟩)
    (hexec : env.combinedOutput s1.world r = (w1, output, true))
    (hfix : opsSend env ⟨w1, s1.History⟩ (fixPrompt output) false = ⟨s2, ev2, .error a⟩) :
    opsHandle env s msg = ⟨s2, ev1 ++ [.exec r] ++ ev2, .abort a⟩ := by
  unfold opsHandle
  simp only [hsend, hexec, hfix]

theorem opsHandle_repair_ok (env : Env W) (s s1 s2 : Session W) (msg : Message)
    (ev1 ev2 : List Event) (r fixed : String) (w1 w2 : W) (output output2 : String)
    (failed2 : Bool)
    (hsend : opsSend env s msg.Content false = ⟨s1, ev1, .ok r⟩)
    (hexec : env.combinedOutput s1.world r = (w1, output, true))
    (hfix : opsSend env ⟨w1, s1.History⟩ (fixPrompt output) false = ⟨s2, ev2, .ok fixed⟩)
    (hexec2 : env.combinedOutput s2.world fixed = (w2, output2, failed2)) :
    opsHandle env s msg
      = ⟨⟨(writeReply env w2 TextMessage ⟨output⟩ .closed).1, s2.History⟩,
          ev1 ++ [.exec r] ++ ev2 ++ [.exec fixed]
            ++ (writeReply env w2 TextMessage ⟨output⟩ .closed).2.1,
          (writeReply env w2 TextMessage ⟨output⟩ .closed).2.2⟩ := by
  unfold opsHandle
  simp only [hsend, hexec, hfix, hexec2]

theorem opsHandle_send_abort (env : Env W) (s s1 : Session W) (msg : Message)
    (ev1 : List Event) (a : Abort)
    (hsend : opsSend env s msg.Content false = ⟨s1, ev1, .error a⟩) :
    opsHandle env s msg = ⟨s1, ev1, .abort a⟩ := by
  unfold opsHandle
  simp only [hsend]

theorem opsStep_of_decoded (env : Env W) (s : Session W) (messageType : Nat) (p : String)
    (msg : Message) (hdec : env.unmarshal p = some msg) :
    opsStep env s (some (messageType, p)) = opsHandle env s msg := by
  simp only [opsStep, hdec]

theorem opsSend_written (env : Env W) (s : Session W) (msg : String) (streaming : Bool) :
    written (opsSend env s msg streaming).events = [] := by
  unfold opsSend
  split
  · rfl
  · rw [submitAndRead_events]
    rfl

theorem opsSend_fixPrompt_events (env : Env W) (s : Session W) (output : String) :
    (opsSend env s (fixPrompt output) false).events = [.submit (fixPrompt output) false] := by
  rw [opsSend_fixPrompt, submitAndRead_events]

/-- The three ways the body of the `/ops` loop can go once `send` has returned a reply `r` and
the first command has run: the command succeeded; it failed and the repair submission
aborted; it failed and the repaired command `fixed` ran. -/
theorem opsHandle_shape (env : Env W) (s s1 : Session W) (msg : Message) (ev1 : List Event)
    (r : String) (w1 : W) (output : String) (failed : Bool)
    (hsend : opsSend env s msg.Content false = ⟨s1, ev1, .ok r⟩)
    (hexec : env.combinedOutput s1.world r = (w1, output, failed)) :
    (failed = false ∧
      opsHandle env s msg
        = ⟨⟨(writeReply env w1 TextMessage ⟨output⟩ .closed).1, s1.History⟩,
            ev1 ++ [.exec r] ++ (writeReply env w1 TextMessage ⟨output⟩ .closed).2.1,
            (writeReply env w1 TextMessage ⟨output⟩ .closed).2.2⟩)
    ∨ (failed = true ∧ ∃ s2 a,
        opsSend env ⟨w1, s1.History⟩ (fixPrompt output) false
          = ⟨s2, [.submit (fixPrompt output) false], .error a⟩
        ∧ opsHandle env s msg
          = ⟨s2, ev1 ++ [.exec r] ++ [.submit (fixPrompt output) false], .abort a⟩)
    ∨ (failed = true ∧ ∃ s2 fixed w2,
        opsSend env ⟨w1, s1.History⟩ (fixPrompt output) false
          = ⟨s2, [.submit (fixPrompt output) false], .ok fixed⟩
        ∧ opsHandle env s msg
          = ⟨⟨(writeReply env w2 TextMessage ⟨output⟩ .closed).1, s2.History⟩,
              ev1 ++ [.exec r] ++ [.submit (fixPrompt output) false] ++ [.exec fixed]
                ++ (writeReply env w2 TextMessage ⟨output⟩ .closed).2.1,
              (writeReply env w2 TextMessage ⟨output⟩ .closed).2.2⟩) := by
  cases failed with
  | false => exact Or.inl ⟨rfl, opsHandle_success env s s1 msg ev1 r w1 output hsend hexec⟩
  | true =>
    right
    have hev := opsSend_fixPrompt_events env ⟨w1, s1.History⟩ output
    rcases hfix : opsSend env ⟨w1, s1.History⟩ (fixPrompt output) false with ⟨s2, ev2, res⟩
    rw [hfix] at hev
    simp only at hev
    subst hev
    cases res with
    | error a =>
      exact Or.inl ⟨rfl, s2, a, rfl,
        opsHandle_repair_abort env s s1 s2 msg ev1 _ r w1 output a hsend hexec hfix⟩
    | ok fixed =>
      rcases hexec2 : env.combinedOutput s2.world fixed with ⟨w2, output2, failed2⟩
      exact Or.inr ⟨rfl, s2, fixed, w2, rfl,
        opsHandle_repair_ok env s s1 s2 msg ev1 _ r fixed w1 w2 output output2 failed2
          hsend hexec hfix hexec2⟩

theorem opsStep_counts_le (env : Env W) (s : Session W) (frame : Frame) :
    countSubmits (opsStep env s frame).events ≤ 2
    ∧ countExecs (opsStep env s frame).events ≤ 2 := by
  match frame with
  | none => simp [opsStep, countSubmits, countExecs]
  | some (messageType, p) =>
    cases hdec : env.unmarshal p with
    | none => simp [opsStep, hdec, countSubmits, countExecs]
    | some msg =>
      rw [opsStep_of_decoded env s messageType p msg hdec]
      have hs := opsSend_countSubmits_le env s msg.Content false
      have he := opsSend_countExecs env s msg.Content false
      rcases hsend : opsSend env s msg.Content false with ⟨s1, ev1, res⟩
      rw [hsend] at hs he
      simp only at hs he
      cases res with
      | error a =>
        rw [opsHandle_send_abort env s s1 msg ev1 a hsend]
        simp only [he]
        omega
      | ok r =>
        rcases hexec : env.combinedOutput s1.world r with ⟨w1, output, failed⟩
        rcases opsHandle_shape env s s1 msg ev1 r w1 output failed hsend hexec with
          ⟨_, h⟩ | ⟨_, s2, a, _, h⟩ | ⟨_, s2, fixed, w2, _, h⟩
        all_goals
          rw [h]
          simp only [countSubmits_append, countExecs_append, writeReply_countSubmits,
            writeReply_countExecs, countSubmits, countExecs, he]
          omega

/-! ## History growth -/

theorem submitAndRead_grows (env : Env W) (s : Session W) (msg : String) (streaming : Bool)
    (hmodel : ModelAppendsTwo env) :
    (submitAndRead env s msg streaming).st.History.length = s.History.length + 2
    ∧ ∃ r, (submitAndRead env s msg streaming).result = .ok r := by
  obtain ⟨h1, hsub, hlen⟩ := hmodel s.world s.History msg streaming
  rcases hcall : env.sendMessage s.world s.History msg streaming with ⟨w1, res⟩
  rw [hcall] at hsub
  simp only at hsub
  subst hsub
  cases hlast : h1.getLast? with
  | none =>
    rw [List.getLast?_eq_none_iff] at hlast
    rw [hlast] at hlen
    simp at hlen
  | some last =>
    rw [submitAndRead_ok env s msg streaming w1 h1 last hcall hlast]
    exact ⟨hlen, _, rfl⟩

theorem chatSend_grows (env : Env W) (s : Session W) (msg : String) (streaming : Bool)
    (hmodel : ModelAppendsTwo env) :
    (chatSend env s msg streaming).st.History.length
      = s.History.length + 2 * countSubmits (chatSend env s msg streaming).events
    ∧ (countSubmits (chatSend env s msg streaming).events = if msg = "" then 0 else 1)
    ∧ ∃ r, (chatSend env s msg streaming).result = .ok r := by
  unfold chatSend
  by_cases h : msg = ""
  · simp only [if_pos h]
    exact ⟨rfl, rfl, _, rfl⟩
  · simp only [if_neg h, submitAndRead_events]
    exact ⟨(submitAndRead_grows env s msg streaming hmodel).1, rfl,
      (submitAndRead_grows env s msg streaming hmodel).2⟩

theorem opsSend_grows (env : Env W) (s : Session W) (msg : String) (streaming : Bool)
    (hmodel : ModelAppendsTwo env) :
    (opsSend env s msg streaming).st.History.length
      = s.History.length + 2 * countSubmits (opsSend env s msg streaming).events
    ∧ (countSubmits (opsSend env s msg streaming).events
        = if msg = "echo true" ∨ msg = "echo false" then 0 else 1)
    ∧ ∃ r, (opsSend env s msg streaming).result = .ok r := by
  unfold opsSend
  by_cases h : msg = "echo true" ∨ msg = "echo false"
  · simp only [if_pos h]
    exact ⟨rfl, rfl, _, rfl⟩
  · simp only [if_neg h, submitAndRead_events]
    exact ⟨(submitAndRead_grows env s msg streaming hmodel).1, rfl,
      (submitAndRead_grows env s msg streaming hmodel).2⟩

theorem chatStep_of_decoded (env : Env W) (s : Session W) (messageType : Nat) (p : String)
    (msg : Message) (r : String) (hdec : env.unmarshal p = some msg)
    (hres : (chatSend env s msg.Content true).result = .ok r) :
    chatStep env s (some (messageType, p))
      = ⟨⟨(writeReply env (chatSend env s msg.Content true).st.world TextMessage ⟨r⟩
              .closed).1, (chatSend env s msg.Content true).st.History⟩,
          (chatSend env s msg.Content true).events
            ++ (writeReply env (chatSend env s msg.Content true).st.world TextMessage ⟨r⟩
              .closed).2.1,
          (writeReply env (chatSend env s msg.Content true).st.world TextMessage ⟨r⟩
              .closed).2.2⟩ := by
  simp only [chatStep, hdec, hres]

theorem chatStep_grows (env : Env W) (s : Session W) (frame : Frame)
    (hmodel : ModelAppendsTwo env) :
    (chatStep env s frame).st.History.length
      = s.History.length + 2 * countSubmits (chatStep env s frame).events := by
  match frame with
  | none => simp [chatStep, countSubmits]
  | some (messageType, p) =>
    cases hdec : env.unmarshal p with
    | none => simp [chatStep, hdec, countSubmits]
    | some msg =>
      obtain ⟨hlen, _, r, hres⟩ := chatSend_grows env s msg.Content true hmodel
      rw [chatStep_of_decoded env s messageType p msg r hdec hres]
      simp only [countSubmits_append, writeReply_countSubmits, Nat.add_zero]
      exact hlen

theorem opsStep_grows (env : Env W) (s : Session W) (frame : Frame)
    (hmodel : ModelAppendsTwo env) :
    (opsStep env s frame).st.History.length
      = s.History.length + 2 * countSubmits (opsStep env s frame).events := by
  match frame with
  | none => simp [opsStep, countSubmits]
  | some (messageType, p) =>
    cases hdec : env.unmarshal p with
    | none => simp [opsStep, hdec, countSubmits]
    | some msg =>
      rw [opsStep_of_decoded env s messageType p msg hdec]
      obtain ⟨hlen, _, r, hres⟩ := opsSend_grows env s msg.Content false hmodel
      rcases hsend : opsSend env s msg.Content false with ⟨s1, ev1, res⟩
      rw [hsend] at hlen hres
      simp only at hlen hres
      subst hres
      rcases hexec : env.combinedOutput s1.world r with ⟨w1, output, failed⟩
      rcases opsHandle_shape env s s1 msg ev1 r w1 output failed hsend hexec with
        ⟨_, h⟩ | ⟨_, s2, a, hfix, h⟩ | ⟨_, s2, fixed, w2, hfix, h⟩
      · rw [h]
        simp only [countSubmits_append, writeReply_countSubmits, countSubmits]
        omega
      · obtain ⟨hlen2, _, r2, hres2⟩ :=
          opsSend_grows env ⟨w1, s1.History⟩ (fixPrompt output) false hmodel
        rw [hfix] at hres2
        simp at hres2
      · obtain ⟨hlen2, _, _⟩ :=
          opsSend_grows env ⟨w1, s1.History⟩ (fixPrompt output) false hmodel
        rw [hfix] at hlen2
        simp only [countSubmits] at hlen2
        rw [h]
        simp only [countSubmits_append, writeReply_countSubmits, countSubmits]
        omega

theorem runLoop_grows (step : Session W → Frame → Step (Session W))
    (hstep : ∀ s frame, (step s frame).st.History.length
      = s.History.length + 2 * countSubmits (step s frame).events)
    (s : Session W) (frames : List Frame) :
    (runLoop step s frames).st.History.length
      = s.History.length + 2 * countSubmits (runLoop step s frames).events := by
  induction frames generalizing s with
  | nil => simp [runLoop, countSubmits]
  | cons frame rest ih =>
    have h1 := hstep s frame
    simp only [runLoop]
    cases hout : (step s frame).outcome with
    | next =>
      simp only [countSubmits_append]
      rw [ih (step s frame).st]
      omega
    | closed => simpa using h1
    | abort a => simpa using h1

theorem runLoop_all_submit (step : Session W → Frame → Step (Session W))
    (frames : List Frame)
    (hstep : ∀ s, ∀ frame ∈ frames, (step s frame).outcome = .next
      ∧ countSubmits (step s frame).events = 1)
    (s : Session W) :
    countSubmits (runLoop step s frames).events = frames.length
    ∧ (runLoop step s frames).outcome = .next := by
  induction frames generalizing s with
  | nil => simp [runLoop, countSubmits]
  | cons frame rest ih =>
    obtain ⟨hout, hcount⟩ := hstep s frame (List.mem_cons_self _ _)
    have ih2 := ih (fun s2 f hf => hstep s2 f (List.mem_cons_of_mem _ hf)) (step s frame).st
    simp only [runLoop, hout, countSubmits_append, hcount, ih2, List.length_cons]
    exact ⟨by omega, trivial⟩

theorem writeReply_delivered (env : Env W) (w : W) (mt : Nat) (m : Message) (o : Outcome)
    (hdel : RepliesDelivered env) : (writeReply env w mt m o).2.2 = .next := by
  obtain ⟨payload, hm⟩ := hdel.1 m
  have hw := hdel.2 w mt payload
  unfold writeReply
  rw [hm]
  simp only
  rcases hcall : env.writeMessage w mt payload with ⟨w1, ok⟩
  rw [hcall] at hw
  simp only at hw
  subst hw
  rfl

theorem chatStep_one_submit (env : Env W) (s : Session W) (messageType : Nat) (p : String)
    (msg : Message) (hmodel : ModelAppendsTwo env) (hdel : RepliesDelivered env)
    (hdec : env.unmarshal p = some msg) (hne : msg.Content ≠ "") :
    (chatStep env s (some (messageType, p))).outcome = .next
    ∧ countSubmits (chatStep env s (some (messageType, p))).events = 1 := by
  obtain ⟨_, hcount, r, hres⟩ := chatSend_grows env s msg.Content true hmodel
  rw [if_neg hne] at hcount
  rw [chatStep_of_decoded env s messageType p msg r hdec hres]
  simp only [countSubmits_append, writeReply_countSubmits, hcount]
  exact ⟨writeReply_delivered env _ _ _ _ hdel, trivial⟩

theorem opsStep_one_submit (env : Env W) (s : Session W) (messageType : Nat) (p : String)
    (msg : Message) (hmodel : ModelAppendsTwo env) (hdel : RepliesDelivered env)
    (hshell : CommandsSucceed env)
    (hdec : env.unmarshal p = some msg)
    (hne : ¬ (msg.Content = "echo true" ∨ msg.Content = "echo false")) :
    (opsStep env s (some (messageType, p))).outcome = .next
    ∧ countSubmits (opsStep env s (some (messageType, p))).events = 1 := by
  rw [opsStep_of_decoded env s messageType p msg hdec]
  obtain ⟨_, hcount, r, hres⟩ := opsSend_grows env s msg.Content false hmodel
  rw [if_neg hne] at hcount
  rcases hsend : opsSend env s msg.Content false with ⟨s1, ev1, res⟩
  rw [hsend] at hcount hres
  simp only at hcount hres
  subst hres
  have hs := hshell s1.world r
  rcases hexec : env.combinedOutput s1.world r with ⟨w1, output, failed⟩
  rw [hexec] at hs
  simp only at hs
  subst hs
  rw [opsHandle_success env s s1 msg ev1 r w1 output hsend hexec]
  simp only [countSubmits_append, writeReply_countSubmits, countSubmits, hcount]
  exact ⟨writeReply_delivered env _ _ _ _ hdel, trivial⟩

theorem opsSend_countSubmits (env : Env W) (s : Session W) (msg : String) (streaming : Bool) :
    countSubmits (opsSend env s msg streaming).events
      = if msg = "echo true" ∨ msg = "echo false" then 0 else 1 := by
  unfold opsSend
  by_cases h : msg = "echo true" ∨ msg = "echo false"
  · simp only [if_pos h]
    rfl
  · simp only [if_neg h, submitAndRead_events]
    rfl

/-- The number of model submissions of one `/ops` iteration whose `send` returned a reply:
the submission of the message itself unless it is a sentinel, and the repair request when the
first command failed. -/
theorem opsStep_countSubmits (env : Env W) (s s1 : Session W) (messageType : Nat) (p : String)
    (msg : Message) (ev1 : List Event) (r : String) (w1 : W) (output : String) (failed : Bool)
    (hdec : env.unmarshal p = some msg)
    (hsend : opsSend env s msg.Content false = ⟨s1, ev1, .ok r⟩)
    (hexec : env.combinedOutput s1.world r = (w1, output, failed)) :
    countSubmits (opsStep env s (some (messageType, p))).events
      = (if msg.Content = "echo true" ∨ msg.Content = "echo false" then 0 else 1)
        + (if failed = true then 1 else 0) := by
  rw [opsStep_of_decoded env s messageType p msg hdec]
  have hcount := opsSend_countSubmits env s msg.Content false
  rw [hsend] at hcount
  simp only at hcount
  rcases opsHandle_shape env s s1 msg ev1 r w1 output failed hsend hexec with
    ⟨hf, h⟩ | ⟨hf, s2, a, _, h⟩ | ⟨hf, s2, fixed, w2, _, h⟩
  all_goals
    rw [h, hf]
    simp only [countSubmits_append, writeReply_countSubmits, countSubmits, hcount]
    simp

/-! ## The read loop -/

theorem runLoop_skip {σ : Type} (step : σ → Frame → Step σ) (s : σ) (frame : Frame)
    (rest : List Frame) (h : step s frame = ⟨s, [], .next⟩) :
    runLoop step s (frame :: rest) = runLoop step s rest := by
  simp only [runLoop, h, List.nil_append]

end HandlerFacts

/-! ## The scripted worlds satisfy the assumptions -/

theorem demoEnv_appendsTwo : ModelAppendsTwo demoEnv := by
  intro w history msg streaming
  exact ⟨_, rfl, by simp⟩

theorem quietEnv_appendsTwo : ModelAppendsTwo quietEnv := by
  intro w history msg streaming
  exact ⟨_, rfl, by simp⟩

theorem demoEnv_delivers : RepliesDelivered demoEnv :=
  ⟨fun _ => ⟨_, rfl⟩, fun _ _ _ => rfl⟩

theorem quietEnv_delivers : RepliesDelivered quietEnv :=
  ⟨fun _ => ⟨_, rfl⟩, fun _ _ _ => rfl⟩

theorem quietEnv_succeeds : CommandsSucceed quietEnv := fun _ _ => rfl

theorem demo_wellFormed_hello (env : Env Unit) (ok : String → Prop)
    (henv : env.unmarshal = demoUnmarshal) (hok : ok "say hello") :
    WellFormed env ok [demoFrame "say hello", demoFrame "say hello"] := by
  intro f hf
  have hf2 : f = demoFrame "say hello" := by
    simpa using hf
  exact ⟨TextMessage, _, ⟨"say hello"⟩, hf2, by rw [henv]; rfl, hok⟩

section Claims

variable {W : Type}

/-- C8: on each of `/ai`, `/start-chat` and `/ops`, a frame whose body fails JSON decoding
leaves the state (world and session history) unchanged, makes no collaborator call at all (no
outbound message, no model submission, no shell command) and ends the iteration with
`continue`: the loop goes on exactly as if the frame had not been there. -/
theorem malformed_frame_skipped (env : Env W) (w : W) (s : Session W) (messageType : Nat)
    (p : String) (rest : List Frame) (hbad : env.unmarshal p = none) :
    aiStep env w (some (messageType, p)) = ⟨w, [], .next⟩
    ∧ chatStep env s (some (messageType, p)) = ⟨s, [], .next⟩
    ∧ opsStep env s (some (messageType, p)) = ⟨s, [], .next⟩
    ∧ aiLoop env w (some (messageType, p) :: rest) = aiLoop env w rest
    ∧ chatLoop env s (some (messageType, p) :: rest) = chatLoop env s rest
    ∧ opsLoop env s (some (messageType, p) :: rest) = opsLoop env s rest := by
  have hai : aiStep env w (some (messageType, p)) = ⟨w, [], .next⟩ := by
    simp only [aiStep, hbad]
  have hchat : chatStep env s (some (messageType, p)) = ⟨s, [], .next⟩ := by
    simp only [chatStep, hbad]
  have hops : opsStep env s (some (messageType, p)) = ⟨s, [], .next⟩ := by
    simp only [opsStep, hbad]
  exact ⟨hai, hchat, hops, runLoop_skip _ _ _ _ hai, runLoop_skip _ _ _ _ hchat,
    runLoop_skip _ _ _ _ hops⟩

/-- C5: on `/ops`, for every session state and both values of the streaming flag, `send`
applied to exactly "echo true" or exactly "echo false" returns its argument, makes no
collaborator call (no model submission) and leaves the session unchanged; for every other
string the model is contacted: the call submits that string with that flag.  Strings that
differ from a sentinel only by case or surrounding whitespace are among the others. -/
theorem opsSend_sentinel_shortcircuit (env : Env W) (s : Session W) (streaming : Bool)
    (msg : String) :
    opsSend env s "echo true" streaming = ⟨s, [], .ok "echo true"⟩
    ∧ opsSend env s "echo false" streaming = ⟨s, [], .ok "echo false"⟩
    ∧ (msg ≠ "echo true" → msg ≠ "echo false" →
        (opsSend env s msg streaming).events = [.submit msg streaming]
        ∧ countSubmits (opsSend env s msg streaming).events = 1)
    ∧ (opsSend env s "Echo true" streaming).events = [.submit "Echo true" streaming]
    ∧ (opsSend env s "ECHO FALSE" streaming).events = [.submit "ECHO FALSE" streaming]
    ∧ (opsSend env s " echo true" streaming).events = [.submit " echo true" streaming]
    ∧ (opsSend env s "echo false\n" streaming).events = [.submit "echo false\n" streaming]
    ∧ (opsSend env s "" streaming).events = [.submit "" streaming] := by
  have other : ∀ m : String, m ≠ "echo true" → m ≠ "echo false" →
      (opsSend env s m streaming).events = [.submit m streaming] := by
    intro m h1 h2
    rw [opsSend_of_other env s m streaming (by simp [h1, h2]), submitAndRead_events]
  refine ⟨opsSend_of_sentinel env s _ streaming (Or.inl rfl),
    opsSend_of_sentinel env s _ streaming (Or.inr rfl), ?_,
    other _ (by decide) (by decide), other _ (by decide) (by decide),
    other _ (by decide) (by decide), other _ (by decide) (by decide),
    other _ (by decide) (by decide)⟩
  intro h1 h2
  rw [other msg h1 h2]
  exact ⟨rfl, rfl⟩

/-- Witness for C5: in the scripted world, with a session that already holds history, the
sentinels are returned untouched and "say hello" is submitted to the model. -/
theorem opsSend_sentinel_shortcircuit_witness :
    opsSend demoEnv ⟨(), [none]⟩ "echo true" true = ⟨⟨(), [none]⟩, [], .ok "echo true"⟩
    ∧ opsSend demoEnv ⟨(), [none]⟩ "echo false" true = ⟨⟨(), [none]⟩, [], .ok "echo false"⟩
    ∧ (opsSend demoEnv ⟨(), [none]⟩ "say hello" true).events = [.submit "say hello" true]
    ∧ countSubmits (opsSend demoEnv ⟨(), [none]⟩ "say hello" true).events = 1 :=
  have h := opsSend_sentinel_shortcircuit demoEnv ⟨(), [none]⟩ true "say hello"
  ⟨h.1, h.2.1, (h.2.2.1 (by decide) (by decide)).1, (h.2.2.1 (by decide) (by decide)).2⟩

/-- C10: on `/start-chat`, `send` applied to the empty string returns the empty string with no
collaborator call (no model submission) and leaves the session unchanged, and the handler,
for a well-formed message with empty content, still writes an outbound `Message` with empty
content (its JSON encoding `payload`) and nothing else; for a non-empty content whose
submission succeeds, the reply is `contentString` of the last history entry after the
submission, and that is the content the handler writes. -/
theorem chat_empty_message_echoed (env : Env W) (s : Session W) (streaming : Bool)
    (messageType : Nat) (p payload : String) (msg : Message)
    (w1 : W) (h1 : List (Option Content)) (last : Option Content) :
    chatSend env s "" streaming = ⟨s, [], .ok ""⟩
    ∧ (env.unmarshal p = some ⟨""⟩ → env.marshal ⟨""⟩ = some payload →
        (chatStep env s (some (messageType, p))).events = [.write TextMessage ⟨""⟩ payload]
        ∧ written (chatStep env s (some (messageType, p))).events = [⟨""⟩]
        ∧ countSubmits (chatStep env s (some (messageType, p))).events = 0
        ∧ (chatStep env s (some (messageType, p))).st.History = s.History)
    ∧ (msg.Content ≠ "" →
        env.sendMessage s.world s.History msg.Content streaming = (w1, some h1) →
        h1.getLast? = some last →
        chatSend env s msg.Content streaming
          = ⟨⟨w1, h1⟩, [.submit msg.Content streaming], .ok (contentString last)⟩)
    ∧ (msg.Content ≠ "" → env.unmarshal p = some msg →
        env.sendMessage s.world s.History msg.Content true = (w1, some h1) →
        h1.getLast? = some last → env.marshal ⟨contentString last⟩ = some payload →
        (chatStep env s (some (messageType, p))).events
          = [.submit msg.Content true, .write TextMessage ⟨contentString last⟩ payload]
        ∧ (chatStep env s (some (messageType, p))).st.History = h1) := by
  have hempty : ∀ b, chatSend env s "" b = ⟨s, [], .ok ""⟩ := by
    intro b
    unfold chatSend
    rw [if_pos rfl]
  have hsend : ∀ b, msg.Content ≠ "" →
      env.sendMessage s.world s.History msg.Content b = (w1, some h1) →
      h1.getLast? = some last →
      chatSend env s msg.Content b
        = ⟨⟨w1, h1⟩, [.submit msg.Content b], .ok (contentString last)⟩ := by
    intro b hne hsub hlast
    unfold chatSend
    rw [if_neg hne]
    exact submitAndRead_ok env s msg.Content b w1 h1 last hsub hlast
  refine ⟨hempty streaming, ?_, hsend streaming, ?_⟩
  · intro hdec hm
    have hev := writeReply_events_of_marshal env s.world TextMessage ⟨""⟩ .closed payload hm
    simp only [chatStep, hdec, hempty true, List.nil_append, hev, written, countSubmits,
      and_self]
  · intro hne hdec hsub hlast hm
    have hev := writeReply_events_of_marshal env w1 TextMessage ⟨contentString last⟩ .closed
      payload hm
    simp only [chatStep, hdec, hsend true hne hsub hlast, hev, List.singleton_append,
      and_self]

/-- Witness for C10: in the scripted world a message with empty content is answered with an
empty `Message` and no submission, and "say hello" is answered with the last history entry,
the scripted model's "echo hello". -/
theorem chat_empty_message_echoed_witness :
    chatSend demoEnv demoSession "" true = ⟨demoSession, [], .ok ""⟩
    ∧ (chatStep demoEnv demoSession (demoFrame "")).events
        = [.write TextMessage ⟨""⟩ "\x7b\"content\":\"\"\x7d"]
    ∧ written (chatStep demoEnv demoSession (demoFrame "")).events = [⟨""⟩]
    ∧ countSubmits (chatStep demoEnv demoSession (demoFrame "")).events = 0
    ∧ (chatStep demoEnv demoSession (demoFrame "")).st.History = []
    ∧ (chatStep demoEnv demoSession (demoFrame "say hello")).events
        = [.submit "say hello" true,
            .write TextMessage ⟨"echo hello"⟩ "\x7b\"content\":\"echo hello\"\x7d"] :=
  have h := chat_empty_message_echoed demoEnv demoSession true TextMessage
    "\x7b\"content\":\"\"\x7d" "\x7b\"content\":\"\"\x7d" ⟨"say hello"⟩ ()
    [some ⟨"user", some [.text "say hello"]⟩, some ⟨"model", some [.text "echo hello"]⟩]
    (some ⟨"model", some [.text "echo hello"]⟩)
  have h2 := chat_empty_message_echoed demoEnv demoSession true TextMessage
    "\x7b\"content\":\"say hello\"\x7d" "\x7b\"content\":\"echo hello\"\x7d" ⟨"say hello"⟩ ()
    [some ⟨"user", some [.text "say hello"]⟩, some ⟨"model", some [.text "echo hello"]⟩]
    (some ⟨"model", some [.text "echo hello"]⟩)
  ⟨h.1, (h.2.1 rfl rfl).1, (h.2.1 rfl rfl).2.1, (h.2.1 rfl rfl).2.2.1, (h.2.1 rfl rfl).2.2.2,
    (h2.2.2.2 (by decide) rfl rfl rfl rfl).1⟩

/-- Witness for C8: in the scripted world the body `not json` is malformed; the three
handlers skip it. -/
theorem malformed_frame_skipped_witness :
    demoEnv.unmarshal "not json" = none
    ∧ aiStep demoEnv () (some (TextMessage, "not json")) = ⟨(), [], .next⟩
    ∧ chatStep demoEnv demoSession (some (TextMessage, "not json")) = ⟨demoSession, [], .next⟩
    ∧ opsStep demoEnv demoSession (some (TextMessage, "not json")) = ⟨demoSession, [], .next⟩
    ∧ opsLoop demoEnv demoSession [some (TextMessage, "not json"), demoFrame "echo true"]
        = opsLoop demoEnv demoSession [demoFrame "echo true"] :=
  have h := malformed_frame_skipped demoEnv () demoSession TextMessage "not json"
    [demoFrame "echo true"] rfl
  ⟨rfl, h.1, h.2.1, h.2.2.1, h.2.2.2.2.2⟩

/-- C9: on `/ops`, for a well-formed message whose `send` returned the reply `r`, every
outbound `Message` written while handling it carries the combined output of the first
executed command `bash -c r`, whether that command succeeded or failed; and when the handling
is not aborted and the encoding succeeds, exactly one outbound `Message` is written, with that
content.  The output of a corrective command never reaches it. -/
theorem ops_outbound_is_first_output (env : Env W) (s s1 : Session W) (messageType : Nat)
    (p : String) (msg : Message) (ev1 : List Event) (r : String) (w1 : W) (output : String)
    (failed : Bool) (payload : String)
    (hdec : env.unmarshal p = some msg)
    (hsend : opsSend env s msg.Content false = ⟨s1, ev1, .ok r⟩)
    (hexec : env.combinedOutput s1.world r = (w1, output, failed)) :
    (∀ m ∈ written (opsStep env s (some (messageType, p))).events, m = ⟨output⟩)
    ∧ ((opsStep env s (some (messageType, p))).outcome.isAbort = false →
        env.marshal ⟨output⟩ = some payload →
        written (opsStep env s (some (messageType, p))).events = [⟨output⟩]) := by
  rw [opsStep_of_decoded env s messageType p msg hdec]
  have hw := opsSend_written env s msg.Content false
  rw [hsend] at hw
  simp only at hw
  rcases opsHandle_shape env s s1 msg ev1 r w1 output failed hsend hexec with
    ⟨_, h⟩ | ⟨_, s2, a, _, h⟩ | ⟨_, s2, fixed, w2, _, h⟩
  · rw [h]
    simp only [written_append, hw, written, List.nil_append]
    refine ⟨fun m hm => writeReply_written_mem env w1 _ _ _ m hm, fun _ hm => ?_⟩
    rw [writeReply_events_of_marshal env w1 _ _ _ payload hm]
    rfl
  · rw [h]
    simp only [written_append, hw, written, List.nil_append]
    exact ⟨fun m hm => absurd hm (List.not_mem_nil m), fun hab _ => by simp [Outcome.isAbort] at hab⟩
  · rw [h]
    simp only [written_append, hw, written, List.nil_append]
    refine ⟨fun m hm => writeReply_written_mem env w2 _ _ _ m hm, fun _ hm => ?_⟩
    rw [writeReply_events_of_marshal env w2 _ _ _ payload hm]
    rfl

/-- Witness for C9: in the scripted world "read /missing" makes the model answer
`cat /missing`, which fails; the outbound content is that first command's output. -/
theorem ops_outbound_is_first_output_witness :
    written (opsStep demoEnv demoSession (demoFrame "read /missing")).events
      = [⟨"cat: /missing: No such file or directory\n"⟩] :=
  (ops_outbound_is_first_output demoEnv demoSession
    ⟨(), [some ⟨"user", some [.text "read /missing"]⟩,
      some ⟨"model", some [.text "cat /missing"]⟩]⟩
    TextMessage "\x7b\"content\":\"read /missing\"\x7d" ⟨"read /missing"⟩
    [.submit "read /missing" false] "cat /missing" ()
    "cat: /missing: No such file or directory\n" true
    "\x7b\"content\":\"cat: /missing: No such file or directory\\n\"\x7d"
    rfl rfl rfl).2 rfl rfl

/-- C6: on `/ops`, for a well-formed message whose `send` returned the reply `r`: when the
first command `bash -c r` fails, exactly one corrective model request (the repair prompt) is
issued and, unless that request aborts the process, exactly one corrective command is run
right after it and nothing more, whatever the corrective command's own outcome; when the
first command succeeds there is no corrective request and no second command.  For every
frame at most two model submissions and at most two shell executions happen. -/
theorem ops_single_repair (env : Env W) (s s1 : Session W) (messageType : Nat) (p : String)
    (msg : Message) (ev1 : List Event) (r : String) (w1 : W) (output : String) (failed : Bool)
    (frame : Frame)
    (hdec : env.unmarshal p = some msg)
    (hsend : opsSend env s msg.Content false = ⟨s1, ev1, .ok r⟩)
    (hexec : env.combinedOutput s1.world r = (w1, output, failed)) :
    (failed = true →
      countSubmits (opsStep env s (some (messageType, p))).events = countSubmits ev1 + 1
      ∧ (∃ tail, (opsStep env s (some (messageType, p))).events
            = ev1 ++ [.exec r, .submit (fixPrompt output) false] ++ tail
          ∧ countSubmits tail = 0 ∧ countExecs tail ≤ 1)
      ∧ ((opsStep env s (some (messageType, p))).outcome.isAbort = false →
          countExecs (opsStep env s (some (messageType, p))).events = 2
          ∧ ∃ fixed tail, (opsStep env s (some (messageType, p))).events
              = ev1 ++ [.exec r, .submit (fixPrompt output) false, .exec fixed] ++ tail
            ∧ countSubmits tail = 0 ∧ countExecs tail = 0))
    ∧ (failed = false →
        countSubmits (opsStep env s (some (messageType, p))).events = countSubmits ev1
        ∧ countExecs (opsStep env s (some (messageType, p))).events = 1
        ∧ ∃ tail, (opsStep env s (some (messageType, p))).events = ev1 ++ [.exec r] ++ tail
            ∧ countSubmits tail = 0 ∧ countExecs tail = 0)
    ∧ countSubmits (opsStep env s frame).events ≤ 2
    ∧ countExecs (opsStep env s frame).events ≤ 2 := by
  refine ⟨?_, ?_, opsStep_counts_le env s frame⟩
  all_goals
    rw [opsStep_of_decoded env s messageType p msg hdec]
    have he := opsSend_countExecs env s msg.Content false
    rw [hsend] at he
    simp only at he
    intro hf
    rcases opsHandle_shape env s s1 msg ev1 r w1 output failed hsend hexec with
      ⟨hf2, h⟩ | ⟨hf2, s2, a, _, h⟩ | ⟨hf2, s2, fixed, w2, _, h⟩
  · rw [hf] at hf2
    exact absurd hf2 (by decide)
  · rw [h]
    refine ⟨?_, ⟨[], ?_, rfl, ?_⟩, ?_⟩
    · simp [countSubmits_append, countSubmits]
    · simp
    · simp [countExecs]
    · intro hab
      simp [Outcome.isAbort] at hab
  · rw [h]
    refine ⟨?_, ⟨.exec fixed :: (writeReply env w2 TextMessage ⟨output⟩ .closed).2.1, ?_,
      ?_, ?_⟩, fun _ => ⟨?_, fixed, (writeReply env w2 TextMessage ⟨output⟩ .closed).2.1,
      ?_, ?_, ?_⟩⟩
    · simp [countSubmits_append, countSubmits, writeReply_countSubmits]
    · simp
    · simp [countSubmits, writeReply_countSubmits]
    · simp [countExecs, writeReply_countExecs]
    · simp [countExecs_append, countExecs, writeReply_countExecs, he]
    · simp
    · exact writeReply_countSubmits env w2 _ _ _
    · exact writeReply_countExecs env w2 _ _ _
  · rw [h]
    refine ⟨?_, ?_, (writeReply env w1 TextMessage ⟨output⟩ .closed).2.1, rfl, ?_, ?_⟩
    · simp [countSubmits_append, countSubmits, writeReply_countSubmits]
    · simp [countExecs_append, countExecs, writeReply_countExecs, he]
    · exact writeReply_countSubmits env w1 _ _ _
    · exact writeReply_countExecs env w1 _ _ _
  · rw [hf] at hf2
    exact absurd hf2 (by decide)
  · rw [hf] at hf2
    exact absurd hf2 (by decide)

/-- Witness for C6: in the scripted world "read /missing" makes the model answer
`cat /missing`, which fails, and the corrective answer `cat /missing` fails again: one
corrective request, one corrective command, two submissions and two executions in all. -/
theorem ops_single_repair_witness :
    countSubmits (opsStep demoEnv demoSession (demoFrame "read /missing")).events = 2
    ∧ countExecs (opsStep demoEnv demoSession (demoFrame "read /missing")).events = 2
    ∧ (demoEnv.combinedOutput () "cat /missing").2.2 = true
    ∧ (opsStep demoEnv demoSession (demoFrame "read /missing")).events
        = [.submit "read /missing" false, .exec "cat /missing",
            .submit (fixPrompt "cat: /missing: No such file or directory\n") false,
            .exec "cat /missing",
            .write TextMessage ⟨"cat: /missing: No such file or directory\n"⟩
              "\x7b\"content\":\"cat: /missing: No such file or directory\\n\"\x7d"] :=
  have h := ops_single_repair demoEnv demoSession
    ⟨(), [some ⟨"user", some [.text "read /missing"]⟩,
      some ⟨"model", some [.text "cat /missing"]⟩]⟩
    TextMessage "\x7b\"content\":\"read /missing\"\x7d" ⟨"read /missing"⟩
    [.submit "read /missing" false] "cat /missing" ()
    "cat: /missing: No such file or directory\n" true (demoFrame "read /missing")
    rfl rfl rfl
  ⟨(h.1 rfl).1, ((h.1 rfl).2.2 rfl).1, rfl, rfl⟩

/-- C1 (evaluation at the failing input): in the scripted world "show /nonexistent" makes the
model answer `cat /nonexistent`, which fails; the corrective command `echo missing` runs last
and prints "missing", yet the outbound content is the output of the first command. -/
theorem ops_repair_output_not_returned :
    (opsStep demoEnv demoSession (demoFrame "show /nonexistent")).events
      = [.submit "show /nonexistent" false, .exec "cat /nonexistent",
          .submit (fixPrompt "cat: /nonexistent: No such file or directory\n") false,
          .exec "echo missing",
          .write TextMessage ⟨"cat: /nonexistent: No such file or directory\n"⟩
            "\x7b\"content\":\"cat: /nonexistent: No such file or directory\\n\"\x7d"]
    ∧ demoEnv.combinedOutput () "cat /nonexistent"
        = ((), "cat: /nonexistent: No such file or directory\n", true)
    ∧ demoEnv.combinedOutput () "echo missing" = ((), "missing\n", false)
    ∧ written (opsStep demoEnv demoSession (demoFrame "show /nonexistent")).events
        = [⟨"cat: /nonexistent: No such file or directory\n"⟩]
    ∧ written (opsStep demoEnv demoSession (demoFrame "show /nonexistent")).events
        ≠ [⟨"missing\n"⟩] := by
  refine ⟨rfl, rfl, rfl, rfl, ?_⟩
  decide

/-- C4 (counterexample): in the scripted world the inbound content "echo true" is run by the
shell, and the outbound content is the shell's output "true" with its newline, not the
string "echo true". -/
theorem ops_sentinel_shell_counterexample :
    demoEnv.unmarshal "\x7b\"content\":\"echo true\"\x7d" = some ⟨"echo true"⟩
    ∧ (opsStep demoEnv demoSession (demoFrame "echo true")).events
        = [.exec "echo true",
            .write TextMessage ⟨"true\n"⟩ "\x7b\"content\":\"true\\n\"\x7d"]
    ∧ countExecs (opsStep demoEnv demoSession (demoFrame "echo true")).events = 1
    ∧ ¬ (written (opsStep demoEnv demoSession (demoFrame "echo true")).events
          = [⟨"echo true"⟩]
        ∧ countSubmits (opsStep demoEnv demoSession (demoFrame "echo true")).events = 0
        ∧ countExecs (opsStep demoEnv demoSession (demoFrame "echo true")).events = 0) := by
  refine ⟨rfl, rfl, rfl, ?_⟩
  decide

/-- C4 (amended): on `/ops`, for an inbound message whose content is exactly "echo true" or
"echo false", `send` returns that string with no model submission; the string is then run as
the first shell command, and every outbound `Message` carries that command's combined output;
when the command succeeds, handling the message makes no model submission and exactly one
shell execution, leaves the history unchanged and, the encoding succeeding, writes exactly
that output. -/
theorem ops_sentinel_runs_shell (env : Env W) (s : Session W) (messageType : Nat)
    (p content : String) (w1 : W) (output : String) (failed : Bool) (payload : String)
    (hsentinel : content = "echo true" ∨ content = "echo false")
    (hdec : env.unmarshal p = some ⟨content⟩)
    (hexec : env.combinedOutput s.world content = (w1, output, failed)) :
    opsSend env s content false = ⟨s, [], .ok content⟩
    ∧ (∃ tail, (opsStep env s (some (messageType, p))).events = .exec content :: tail)
    ∧ (∀ m ∈ written (opsStep env s (some (messageType, p))).events, m = ⟨output⟩)
    ∧ (failed = false →
        countSubmits (opsStep env s (some (messageType, p))).events = 0
        ∧ countExecs (opsStep env s (some (messageType, p))).events = 1
        ∧ (opsStep env s (some (messageType, p))).st.History = s.History
        ∧ (env.marshal ⟨output⟩ = some payload →
            (opsStep env s (some (messageType, p))).events
              = [.exec content, .write TextMessage ⟨output⟩ payload])) := by
  have hsend := opsSend_of_sentinel env s content false hsentinel
  refine ⟨hsend, ?_⟩
  rw [opsStep_of_decoded env s messageType p ⟨content⟩ hdec]
  rcases opsHandle_shape env s s ⟨content⟩ [] content w1 output failed hsend hexec with
    ⟨hf, h⟩ | ⟨hf, s2, a, _, h⟩ | ⟨hf, s2, fixed, w2, _, h⟩
  · rw [h]
    refine ⟨⟨_, rfl⟩, ?_, fun _ => ⟨?_, ?_, rfl, fun hm => ?_⟩⟩
    · intro m hm
      simp only [List.nil_append, List.singleton_append, written] at hm
      exact writeReply_written_mem env w1 _ _ _ m hm
    · simp [countSubmits, writeReply_countSubmits]
    · simp [countExecs, writeReply_countExecs]
    · simp [writeReply_events_of_marshal env w1 _ _ _ payload hm]
  · rw [h]
    refine ⟨⟨_, rfl⟩, ?_, fun hf2 => ?_⟩
    · intro m hm
      simp [written] at hm
    · rw [hf] at hf2
      exact absurd hf2 (by decide)
  · rw [h]
    refine ⟨⟨_, rfl⟩, ?_, fun hf2 => ?_⟩
    · intro m hm
      simp only [List.nil_append, List.singleton_append, List.cons_append, written] at hm
      exact writeReply_written_mem env w2 _ _ _ m hm
    · rw [hf] at hf2
      exact absurd hf2 (by decide)

/-- Witness for C4 (amended): the scripted world at the inbound content "echo false". -/
theorem ops_sentinel_runs_shell_witness :
    opsSend demoEnv demoSession "echo false" false = ⟨demoSession, [], .ok "echo false"⟩
    ∧ countSubmits (opsStep demoEnv demoSession (demoFrame "echo false")).events = 0
    ∧ countExecs (opsStep demoEnv demoSession (demoFrame "echo false")).events = 1
    ∧ (opsStep demoEnv demoSession (demoFrame "echo false")).events
        = [.exec "echo false",
            .write TextMessage ⟨"false\n"⟩ "\x7b\"content\":\"false\\n\"\x7d"] :=
  have h := ops_sentinel_runs_shell demoEnv demoSession TextMessage
    "\x7b\"content\":\"echo false\"\x7d" "echo false" () "false\n" false
    "\x7b\"content\":\"false\\n\"\x7d" (Or.inr rfl) rfl rfl
  ⟨h.1, (h.2.2.2 rfl).1, (h.2.2.2 rfl).2.1, (h.2.2.2 rfl).2.2.2 rfl⟩

/-- C7 (counterexample): the scripted model answers every submission and appends exactly two
history entries, yet after one well-formed message the history has not grown by two: on
`/start-chat` an empty content makes no submission (growth 0), on `/ops` the sentinel
"echo true" makes none either (growth 0), and a message whose first command fails makes two
(growth 4). -/
theorem history_growth_counterexample :
    ModelAppendsTwo demoEnv
    ∧ WellFormed demoEnv (fun _ => True) [demoFrame ""]
    ∧ (chatLoop demoEnv demoSession [demoFrame ""]).outcome = .next
    ∧ (chatLoop demoEnv demoSession [demoFrame ""]).st.History.length = 0
    ∧ (opsLoop demoEnv demoSession [demoFrame "echo true"]).outcome = .next
    ∧ (opsLoop demoEnv demoSession [demoFrame "echo true"]).st.History.length = 0
    ∧ (opsLoop demoEnv demoSession [demoFrame "show /nonexistent"]).outcome = .next
    ∧ (opsLoop demoEnv demoSession [demoFrame "show /nonexistent"]).st.History.length = 4
    ∧ ¬ ((chatLoop demoEnv demoSession [demoFrame ""]).st.History.length
          = demoSession.History.length + 2 * [demoFrame ""].length) := by
  refine ⟨demoEnv_appendsTwo, ?_, rfl, rfl, rfl, rfl, rfl, rfl, by decide⟩
  · intro f hf
    rw [List.mem_singleton] at hf
    exact ⟨TextMessage, _, ⟨""⟩, hf, rfl, trivial⟩

/-- C7 (amended): assuming every model submission succeeds and appends exactly two history
entries, after any sequence of inbound frames on `/start-chat` or on `/ops` the history is
longer than before by exactly twice the number of model submissions made; `/start-chat`
makes one submission per message with non-empty content and none for an empty one; `/ops`
makes, for a message whose `send` returns (it always does under the assumption), one
submission unless the content is a sentinel, and one more, the repair request, when the first
command fails.  Hence the growth is exactly 2N for N well-formed messages when replies are
delivered and, on `/start-chat`, no content is empty or, on `/ops`, no content is a sentinel
and every command succeeds. -/
theorem history_grows_by_submissions (env : Env W) (s : Session W) (frames : List Frame)
    (messageType : Nat) (p : String) (msg : Message)
    (s1 : Session W) (ev1 : List Event) (r : String) (w1 : W) (output : String) (failed : Bool)
    (hmodel : ModelAppendsTwo env) :
    (chatLoop env s frames).st.History.length
      = s.History.length + 2 * countSubmits (chatLoop env s frames).events
    ∧ (opsLoop env s frames).st.History.length
      = s.History.length + 2 * countSubmits (opsLoop env s frames).events
    ∧ (env.unmarshal p = some msg →
        countSubmits (chatStep env s (some (messageType, p))).events
          = if msg.Content = "" then 0 else 1)
    ∧ (RepliesDelivered env → WellFormed env (fun content => content ≠ "") frames →
        (chatLoop env s frames).st.History.length = s.History.length + 2 * frames.length
        ∧ (chatLoop env s frames).outcome = .next)
    ∧ (RepliesDelivered env → CommandsSucceed env →
        WellFormed env (fun content => ¬ (content = "echo true" ∨ content = "echo false"))
          frames →
        (opsLoop env s frames).st.History.length = s.History.length + 2 * frames.length
        ∧ (opsLoop env s frames).outcome = .next)
    ∧ (∃ r0, (opsSend env s msg.Content false).result = .ok r0)
    ∧ (env.unmarshal p = some msg →
        opsSend env s msg.Content false = ⟨s1, ev1, .ok r⟩ →
        env.combinedOutput s1.world r = (w1, output, failed) →
        countSubmits (opsStep env s (some (messageType, p))).events
          = (if msg.Content = "echo true" ∨ msg.Content = "echo false" then 0 else 1)
            + (if failed = true then 1 else 0)
        ∧ (opsStep env s (some (messageType, p))).st.History.length
          = s.History.length
            + 2 * ((if msg.Content = "echo true" ∨ msg.Content = "echo false" then 0 else 1)
              + (if failed = true then 1 else 0))) := by
  have hchat := runLoop_grows (chatStep env) (fun s f => chatStep_grows env s f hmodel) s frames
  have hops := runLoop_grows (opsStep env) (fun s f => opsStep_grows env s f hmodel) s frames
  refine ⟨hchat, hops, ?_, ?_, ?_, (opsSend_grows env s msg.Content false hmodel).2.2, ?_⟩
  rotate_right
  · intro hdec hsend hexec
    have hcount := opsStep_countSubmits env s s1 messageType p msg ev1 r w1 output failed
      hdec hsend hexec
    refine ⟨hcount, ?_⟩
    rw [opsStep_grows env s (some (messageType, p)) hmodel, hcount]
  · intro hdec
    obtain ⟨_, hcount, r, hres⟩ := chatSend_grows env s msg.Content true hmodel
    rw [chatStep_of_decoded env s messageType p msg r hdec hres]
    simp only [countSubmits_append, writeReply_countSubmits, hcount, Nat.add_zero]
  · intro hdel hwf
    have hall := runLoop_all_submit (chatStep env) frames (fun s2 f hf => by
      obtain ⟨mt, q, m, hfq, hdec, hne⟩ := hwf f hf
      rw [hfq]
      exact chatStep_one_submit env s2 mt q m hmodel hdel hdec hne) s
    unfold chatLoop at hchat ⊢
    rw [hchat, hall.1]
    exact ⟨rfl, hall.2⟩
  · intro hdel hshell hwf
    have hall := runLoop_all_submit (opsStep env) frames (fun s2 f hf => by
      obtain ⟨mt, q, m, hfq, hdec, hne⟩ := hwf f hf
      rw [hfq]
      exact opsStep_one_submit env s2 mt q m hmodel hdel hshell hdec hne) s
    unfold opsLoop at hops ⊢
    rw [hops, hall.1]
    exact ⟨rfl, hall.2⟩

/-- Witness for C7 (amended): in the scripted worlds two "say hello" messages grow the
history by four on `/start-chat` and on `/ops`; on `/ops` a message whose first command
fails makes two submissions and grows the history by four, and the sentinel "echo true"
makes none. -/
theorem history_grows_by_submissions_witness :
    ModelAppendsTwo demoEnv
    ∧ (chatLoop demoEnv demoSession [demoFrame "say hello", demoFrame "say hello"]
        ).st.History.length
        = demoSession.History.length
          + 2 * [demoFrame "say hello", demoFrame "say hello"].length
    ∧ (opsLoop quietEnv demoSession [demoFrame "say hello", demoFrame "say hello"]
        ).st.History.length
        = demoSession.History.length
          + 2 * [demoFrame "say hello", demoFrame "say hello"].length
    ∧ (opsLoop demoEnv demoSession [demoFrame "show /nonexistent"]).st.History.length
        = demoSession.History.length
          + 2 * countSubmits (opsLoop demoEnv demoSession [demoFrame "show /nonexistent"]).events
    ∧ countSubmits (opsLoop demoEnv demoSession [demoFrame "show /nonexistent"]).events = 2
    ∧ countSubmits (opsStep demoEnv demoSession (demoFrame "show /nonexistent")).events
        = (if "show /nonexistent" = "echo true" ∨ "show /nonexistent" = "echo false"
            then 0 else 1) + (if true = true then 1 else 0)
    ∧ countSubmits (opsStep demoEnv demoSession (demoFrame "echo true")).events
        = (if "echo true" = "echo true" ∨ "echo true" = "echo false" then 0 else 1)
          + (if false = true then 1 else 0)
    ∧ (opsStep demoEnv demoSession (demoFrame "echo true")).st.History.length
        = demoSession.History.length
          + 2 * ((if "echo true" = "echo true" ∨ "echo true" = "echo false" then 0 else 1)
            + (if false = true then 1 else 0)) :=
  ⟨demoEnv_appendsTwo,
    ((history_grows_by_submissions demoEnv demoSession
      [demoFrame "say hello", demoFrame "say hello"] TextMessage "" ⟨""⟩
      demoSession [] "" () "" false
      demoEnv_appendsTwo).2.2.2.1 demoEnv_delivers
      (demo_wellFormed_hello demoEnv _ rfl (by decide))).1,
    ((history_grows_by_submissions quietEnv demoSession
      [demoFrame "say hello", demoFrame "say hello"] TextMessage "" ⟨""⟩
      demoSession [] "" () "" false
      quietEnv_appendsTwo).2.2.2.2.1 quietEnv_delivers quietEnv_succeeds
      (demo_wellFormed_hello quietEnv _ rfl (by decide))).1,
    (history_grows_by_submissions demoEnv demoSession [demoFrame "show /nonexistent"]
      TextMessage "" ⟨""⟩ demoSession [] "" () "" false demoEnv_appendsTwo).2.1,
    rfl,
    ((history_grows_by_submissions demoEnv demoSession [] TextMessage
      "\x7b\"content\":\"show /nonexistent\"\x7d" ⟨"show /nonexistent"⟩
      ⟨(), [some ⟨"user", some [.text "show /nonexistent"]⟩,
        some ⟨"model", some [.text "cat /nonexistent"]⟩]⟩
      [.submit "show /nonexistent" false] "cat /nonexistent" ()
      "cat: /nonexistent: No such file or directory\n" true
      demoEnv_appendsTwo).2.2.2.2.2.2 rfl rfl rfl).1,
    ((history_grows_by_submissions demoEnv demoSession [] TextMessage
      "\x7b\"content\":\"echo true\"\x7d" ⟨"echo true"⟩
      demoSession [] "echo true" () "true\n" false
      demoEnv_appendsTwo).2.2.2.2.2.2 rfl rfl rfl).1,
    ((history_grows_by_submissions demoEnv demoSession [] TextMessage
      "\x7b\"content\":\"echo true\"\x7d" ⟨"echo true"⟩
      demoSession [] "echo true" () "true\n" false
      demoEnv_appendsTwo).2.2.2.2.2.2 rfl rfl rfl).2⟩

end Claims

end Goaiapi
